import Mathlib

/-!
Shallow embedding of the inventory and transactional ledger engine of the
`pos-backend` repository (Django application `app`).  Monetary and quantity
values (Python `Decimal`) are embedded as exact rationals `ℚ`; Python `int`
values as `ℤ`.  Each definition mirrors one function of the source:

* `Sale.save`                      — `app/models.py`, `Sale.save`
* `SaleSerializer.create`          — `app/serializers.py`, `SaleSerializer.create`
* `SaleViewSet.create`             — `app/views.py`, `SaleViewSet.create`
* `PurchaseItem.save`              — `app/models.py`, `PurchaseItem.save`
* `PurchaseSerializer.create`      — `app/serializers.py`, `PurchaseSerializer.create`
* `CustomerViewSet.repay`          — `app/views.py`, `CustomerViewSet.repay`
* `CashTransaction.get_current_balance` — `app/models.py`
* `invoice_view`                   — `app/views.py`
* `ShopFilterMixin.get_queryset`   — `app/views.py`
-/

/-- Truncation toward zero, the semantics of Python's `int(...)` applied to a
numeric value and of `Decimal.__floordiv__` (`//`) for a positive divisor. -/
def pyTrunc (q : ℚ) : ℤ :=
  if 0 ≤ q then ⌊q⌋ else -⌊-q⌋

/-- Python's `str.strip()`: drop leading and trailing whitespace. -/
def pyStrip (s : String) : String :=
  ⟨((s.data.dropWhile Char.isWhitespace).reverse.dropWhile Char.isWhitespace).reverse⟩

/-- Python truthiness of an optional string (`None` and `""` are falsy),
used for `item.batch_no` in `PurchaseSerializer.create`. -/
def strTruthy : Option String → Bool
  | none => false
  | some s => s ≠ ""

/-- State of a `Sale` row (`app/models.py`): the fields read or written by
`Sale.save` and `SaleSerializer.create`. -/
structure Sale where
  payment_method : String
  paid_amount : ℚ
  due_amount : ℚ
  total : ℚ
  redeemed_points : ℤ
  earned_points : ℤ
deriving DecidableEq

/-- `Sale.save` (`app/models.py` lines 292-314): recomputes `earned_points`,
forces `paid_amount`/`due_amount` according to the payment method, and, when a
customer is attached, updates the customer's loyalty points in place.  The
customer is represented by its `points` value (`None` when no customer). -/
def Sale.save (s : Sale) (customerPoints : Option ℤ) : Sale × Option ℤ :=
  let earned := pyTrunc (s.total / 100)
  let s' :=
    if s.payment_method ≠ "due" then
      { s with earned_points := earned, paid_amount := s.total, due_amount := 0 }
    else
      { s with earned_points := earned, due_amount := s.total - s.paid_amount }
  let pts :=
    match customerPoints with
    | none => none
    | some p =>
      some ((if s.redeemed_points > 0 then max 0 (p - s.redeemed_points) else p) + earned)
  (s', pts)

/-- Input to `SaleSerializer.create`: the request fields it reads.
`hasCustomer` is whether `customer_data.phone` was supplied (the customer is
then resolved or created); `customerPoints` is that customer's current points
(0 for a newly created customer).  `payMethod` is `payment.method`
(`None`/empty falls back to `"cash"`), `payPaid` is `payment.paid_amount`. -/
structure SaleCreateReq where
  hasCustomer : Bool
  customerPoints : ℤ
  payMethod : Option String
  payPaid : ℚ
  total : ℚ
  redeemedPoints : ℤ
deriving DecidableEq

/-- `SaleSerializer.create` (`app/serializers.py` lines 274-368): validates
the payment (overpay rejected for every method, customer required for `due`),
creates the `Sale` (first `Sale.save` run), recomputes `due_amount` and calls
`sale.save(update_fields=["due_amount"])` (second `Sale.save` run), then
applies the serializer's own customer-points update.  Returns the final sale
row and the attached customer's final points, or the validation error key. -/
def SaleSerializer.create (req : SaleCreateReq) : Except String (Sale × Option ℤ) :=
  let method := pyStrip (match req.payMethod with
    | none => "cash"
    | some m => if m = "" then "cash" else m)
  let cust : Option ℤ := if req.hasCustomer then some req.customerPoints else none
  if req.payPaid > req.total then
    .error "paid_amount"
  else if method = "due" ∧ ¬ req.hasCustomer then
    .error "customer_data"
  else
    let paid := if method ≠ "due" ∧ req.payPaid = 0 then req.total else req.payPaid
    let r1 := Sale.save
      { payment_method := method, paid_amount := paid, due_amount := 0,
        total := req.total, redeemed_points := req.redeemedPoints,
        earned_points := 0 } cust
    let s1 := { r1.1 with due_amount := if method = "due" then req.total - paid else 0 }
    let r2 := Sale.save s1 r1.2
    let ptsF :=
      match r2.2 with
      | none => none
      | some p =>
        if req.total > 0 then
          let p' := p + pyTrunc (req.total / 100) - req.redeemedPoints
          some (if p' < 0 then 0 else p')
        else some p
    .ok (r2.1, ptsF)

/-- A `Product` row (`app/models.py`): the fields `SaleViewSet.create` reads
(`id`, tenant `shop`, `title`, decimal `stock`). -/
structure Product where
  id : ℕ
  shop : ℕ
  title : String
  stock : ℚ
deriving DecidableEq

/-- One element of `request.data["items"]` in `SaleViewSet.create`:
an optional product id and the requested decimal quantity. -/
structure SaleItemReq where
  product : Option ℕ
  quantity : ℚ
deriving DecidableEq

/-- Error responses of `SaleViewSet.create` (`app/views.py` lines 94-148). -/
inductive SaleError where
  | productNotFound (pid : Option ℕ)
  | insufficientStock (title : String) (available : ℚ)
  | validation (field : String)
deriving DecidableEq

/-- `product_ids = [i.get("product") for i in items if i.get("product")]`:
Python truthiness drops `None` and `0`. -/
def pidsOf (items : List SaleItemReq) : List ℕ :=
  items.filterMap (fun it =>
    match it.product with
    | some i => if i = 0 then none else some i
    | none => none)

/-- `Product.objects.select_for_update().filter(id__in=product_ids, shop=shop)`:
the rows the view fetches into its `products` dict. -/
def fetchProducts (store : List Product) (shop : ℕ) (pids : List ℕ) : List Product :=
  store.filter (fun p => p.id ∈ pids ∧ p.shop = shop)

/-- `products.get(pid)`: dictionary lookup among the fetched rows. -/
def lookupProduct (ps : List Product) (pid : Option ℕ) : Option Product :=
  pid.bind (fun i => ps.find? (fun p => p.id = i))

/-- The stock-check loop of `SaleViewSet.create`: for each item in order,
`qty = int(item.get("quantity", 0))`; a missing product returns a 404, and
`p.stock < qty` returns the insufficient-stock error naming the product's
title and its available stock.  `none` means every check passed. -/
def stockCheck (ps : List Product) (items : List SaleItemReq) : Option SaleError :=
  items.findSome? (fun it =>
    match lookupProduct ps it.product with
    | none => some (.productNotFound it.product)
    | some p =>
      if p.stock < (pyTrunc it.quantity : ℚ) then
        some (.insufficientStock p.title p.stock)
      else none)

/-- The decrement loop of `SaleViewSet.create`: for each item,
`p.stock -= int(item["quantity"]); p.save(update_fields=["stock"])`, applied
to the fetched (tenant-scoped) rows. -/
def applyDecrements (store : List Product) (shop : ℕ) (items : List SaleItemReq) :
    List Product :=
  items.foldl (fun st it =>
    st.map (fun p =>
      if it.product = some p.id ∧ p.shop = shop then
        { p with stock := p.stock - (pyTrunc it.quantity : ℚ) }
      else p)) store

/-- A successfully created sale: the sale row and the attached customer's
final points. -/
structure SaleSuccess where
  sale : Sale
  customerPoints : Option ℤ
deriving DecidableEq

deriving instance DecidableEq for Except

/-- Result of one `SaleViewSet.create` request: the HTTP-level outcome and
the product store after the (atomic) unit of work. -/
structure ViewResult where
  response : Except SaleError SaleSuccess
  products : List Product
deriving DecidableEq

/-- `SaleViewSet.create` (`app/views.py` lines 94-148): fetches the
tenant-scoped products, runs the stock-check loop, then `serializer.save()`
(which is `SaleSerializer.create`), then decrements stock per item.  Any
error leaves the store unchanged (the failing paths return before any
mutation, and `@transaction.atomic` rolls back on exception). -/
def SaleViewSet.create (store : List Product) (shop : ℕ) (items : List SaleItemReq)
    (req : SaleCreateReq) : ViewResult :=
  let ps := fetchProducts store shop (pidsOf items)
  match stockCheck ps items with
  | some e => ⟨.error e, store⟩
  | none =>
    match SaleSerializer.create req with
    | .error f => ⟨.error (.validation f), store⟩
    | .ok (sale, pts) => ⟨.ok ⟨sale, pts⟩, applyDecrements store shop items⟩

/-- Result of `PurchaseItem.save`: the derived fields and the two candidate
stock targets after the update. -/
structure PurchaseItemResult where
  total_base_qty : ℚ
  cost_per_base_unit : ℚ
  total : ℚ
  variantStock : Option ℚ
  productStock : Option ℚ
deriving DecidableEq

/-- `PurchaseItem.save` (`app/models.py` lines 468-485): computes
`total_base_qty = pack_size * qty_packs`,
`cost_per_base_unit = price_per_pack / pack_size if pack_size > 0 else 0`,
`total = price_per_pack * qty_packs`, then adds `total_base_qty` to the
variant's stock if a variant is set, else to the product's stock. -/
def PurchaseItem.save (pack_size qty_packs price_per_pack : ℚ)
    (variantStock productStock : Option ℚ) : PurchaseItemResult :=
  let tbq := pack_size * qty_packs
  let cost := if pack_size > 0 then price_per_pack / pack_size else 0
  let tot := price_per_pack * qty_packs
  match variantStock with
  | some v => ⟨tbq, cost, tot, some (v + tbq), productStock⟩
  | none =>
    match productStock with
    | some pr => ⟨tbq, cost, tot, none, some (pr + tbq)⟩
    | none => ⟨tbq, cost, tot, none, none⟩

/-- One line of a purchase request (`PurchaseSerializer`, `items` field). -/
structure PurchaseLineReq where
  product : Option ℕ
  variant : Option ℕ
  pack_size : ℚ
  qty_packs : ℚ
  price_per_pack : ℚ
  batch_no : Option String
deriving DecidableEq

/-- A `StockLedger` row (`app/models.py`): the fields written by
`PurchaseSerializer.create`. -/
structure StockLedgerEntry where
  transaction_type : String
  batch_no : Option String
  quantity : ℚ
  remaining_qty : ℚ
deriving DecidableEq

/-- The stock-ledger step of `PurchaseSerializer.create`
(`app/serializers.py` lines 469-482): `product = item.product_variant or
item.product; if product and item.batch_no:` create one entry of type
`purchase` with `quantity = remaining_qty = total_base_qty`; otherwise none. -/
def ledgerEntriesFor (it : PurchaseLineReq) : List StockLedgerEntry :=
  let tbq := it.pack_size * it.qty_packs
  if (it.variant.isSome ∨ it.product.isSome) ∧ strTruthy it.batch_no then
    [⟨"purchase", it.batch_no, tbq, tbq⟩]
  else []

/-- `PurchaseSerializer.create` (`app/serializers.py` lines 448-489), the
parts relevant to totals and the stock ledger: per line it creates the
`PurchaseItem` (accumulating `subtotal` from line totals) and appends the
line's ledger entries; finally `total = subtotal - discount`. -/
def PurchaseSerializer.create (items : List PurchaseLineReq) (discount : ℚ) :
    (ℚ × ℚ) × List StockLedgerEntry :=
  let subtotal := (items.map (fun it => it.price_per_pack * it.qty_packs)).sum
  ((subtotal, subtotal - discount), items.flatMap ledgerEntriesFor)

/-- Sums used by `CustomerViewSet.repay`: a customer's sales are pairs
`(total, paid_amount)`, repayments a list of amounts.  `current_due =
Σ total − (Σ paid_amount + Σ repaid)` (`app/views.py` lines 302-305). -/
def currentDue (sales : List (ℚ × ℚ)) (repaid : List ℚ) : ℚ :=
  (sales.map Prod.fst).sum - ((sales.map Prod.snd).sum + repaid.sum)

/-- `CustomerViewSet.repay` (`app/views.py` lines 292-319): rejects
`amount ≤ 0`, re-derives the customer's current due and rejects
`amount > current_due`; otherwise creates the `CustomerPayment` (returned as
the `ok` value). -/
def CustomerViewSet.repay (sales : List (ℚ × ℚ)) (repaid : List ℚ) (amount : ℚ) :
    Except String ℚ :=
  if amount ≤ 0 then .error "Amount must be > 0"
  else if amount > currentDue sales repaid then .error "Overpay not allowed"
  else .ok amount

/-- A `CashTransaction` row (`app/models.py`): tenant, credit/debit flag,
amount and the stored running balance. -/
structure CashTx where
  shop : ℕ
  isCredit : Bool
  amount : ℚ
  running_balance : ℚ
deriving DecidableEq

/-- `CashTransaction.get_current_balance` (`app/models.py` lines 671-695):
sum of credit amounts minus sum of debit amounts over the tenant's rows. -/
def CashTransaction.get_current_balance (txs : List CashTx) (shop : ℕ) : ℚ :=
  ((txs.filter (fun t => t.shop = shop)).map
      (fun t => if t.isCredit then t.amount else 0)).sum
  - ((txs.filter (fun t => t.shop = shop)).map
      (fun t => if t.isCredit then 0 else t.amount)).sum

/-- Modelled from the spec: the cash-ledger append path
(`CashTransactionCreateAPIView`/`CashTransactionSyncAPIView` are imported by
`app/urls.py` but absent from `app/views.py`).  Per spec §4.5 the previous
running balance of the tenant is the `running_balance` of its most recent
entry, 0 when the tenant has no entries. -/
def prevRunningBalance (txs : List CashTx) (shop : ℕ) : ℚ :=
  match (txs.filter (fun t => t.shop = shop)).getLast? with
  | some t => t.running_balance
  | none => 0

/-- Modelled from the spec: `append(entry)` of the Cash Ledger (§4.5),
missing from `src/app/views.py`: "computes `running_balance =
previous_running_balance(tenant) + (amount if credit else −amount)` and
persists the entry". -/
def appendCashEntry (txs : List CashTx) (shop : ℕ) (isCredit : Bool) (amount : ℚ) :
    List CashTx :=
  txs ++ [⟨shop, isCredit, amount,
    prevRunningBalance txs shop + (if isCredit then amount else -amount)⟩]

/-- Cash-ledger histories generated by the append operation from an empty
ledger. -/
inductive CashReachable : List CashTx → Prop where
  | nil : CashReachable []
  | append (txs : List CashTx) (shop : ℕ) (isCredit : Bool) (amount : ℚ) :
      CashReachable txs → CashReachable (appendCashEntry txs shop isCredit amount)

/-- A `Sale` row as read by `invoice_view`: primary key and tenant. -/
structure SaleRow where
  pk : ℕ
  shop : ℕ
deriving DecidableEq

/-- `invoice_view` (`app/views.py` lines 174-179):
`get_object_or_404(Sale, pk=pk)` — the lookup is by primary key only; the
requesting user's shop is not part of the query. -/
def invoice_view (sales : List SaleRow) (_requesterShop : ℕ) (pk : ℕ) :
    Option SaleRow :=
  sales.find? (fun s => s.pk = pk)

/-- `ShopFilterMixin.get_queryset` (`app/views.py` lines 55-64): the
tenant-scoped queryset used by the list/detail viewsets. -/
def ShopFilterMixin.get_queryset (rows : List SaleRow) (shop : ℕ) : List SaleRow :=
  rows.filter (fun s => s.shop = shop)

/-!  ## Claims -/

/-- C1: For every sale created through `SaleSerializer.create`, if
`payment_method` is not `"due"` then `paid_amount = total` and
`due_amount = 0`; if it is `"due"` then `due_amount = total - paid_amount`
and `paid_amount ≤ total`. -/
theorem sale_payment_policy (req : SaleCreateReq) (sale : Sale) (pts : Option ℤ)
    (h : SaleSerializer.create req = .ok (sale, pts)) :
    (sale.payment_method ≠ "due" → sale.paid_amount = sale.total ∧ sale.due_amount = 0) ∧
    (sale.payment_method = "due" →
      sale.due_amount = sale.total - sale.paid_amount ∧ sale.paid_amount ≤ sale.total) := by
  simp only [SaleSerializer.create, Sale.save] at h
  split_ifs at h <;> simp only [Except.ok.injEq, Prod.mk.injEq] at h <;>
    obtain ⟨hs, -⟩ := h <;> subst hs <;>
    refine ⟨fun hd => ?_, fun hd => ?_⟩ <;> simp_all

/-- Witness for C1: a concrete `due` sale (total 250, paid 100) satisfies the
payment-policy properties, via `sale_payment_policy`. -/
theorem sale_payment_policy_witness :
    ((⟨"due", 100, 150, 250, 0, 2⟩ : Sale).payment_method ≠ "due" →
      (⟨"due", 100, 150, 250, 0, 2⟩ : Sale).paid_amount = (⟨"due", 100, 150, 250, 0, 2⟩ : Sale).total ∧
      (⟨"due", 100, 150, 250, 0, 2⟩ : Sale).due_amount = 0) ∧
    ((⟨"due", 100, 150, 250, 0, 2⟩ : Sale).payment_method = "due" →
      (⟨"due", 100, 150, 250, 0, 2⟩ : Sale).due_amount =
        (⟨"due", 100, 150, 250, 0, 2⟩ : Sale).total - (⟨"due", 100, 150, 250, 0, 2⟩ : Sale).paid_amount ∧
      (⟨"due", 100, 150, 250, 0, 2⟩ : Sale).paid_amount ≤ (⟨"due", 100, 150, 250, 0, 2⟩ : Sale).total) := by
  have hcreate : SaleSerializer.create ⟨true, 0, some "due", 100, 250, 0⟩ =
      .ok (⟨"due", 100, 150, 250, 0, 2⟩, some 6) := by
    simp +decide only [SaleSerializer.create, Sale.save, pyTrunc, pyStrip]
    norm_num
    decide
  exact sale_payment_policy ⟨true, 0, some "due", 100, 250, 0⟩ _ _ hcreate

/-- C4 (code bug): a cash sale of total 250 with a customer holding 10 points
and no redemption leaves the customer at 16 points — the earned points
`⌊250/100⌋ = 2` are added three times (twice by the two `Sale.save` runs,
once by the serializer's own update) — whereas the claimed formula
`max(0, points_before − redeemed) + earned` gives 12. -/
theorem sale_points_triple_count :
    SaleSerializer.create ⟨true, 10, some "cash", 0, 250, 0⟩ =
      .ok (⟨"cash", 250, 0, 250, 0, 2⟩, some 16) ∧
    (16 : ℤ) ≠ max 0 (10 - 0) + pyTrunc ((250 : ℚ) / 100) := by
  constructor
  · simp +decide only [SaleSerializer.create, Sale.save, pyTrunc, pyStrip]
    norm_num
    decide
  · simp only [pyTrunc]
    norm_num

/-- C9: every `createSale` request whose supplied `paid_amount` exceeds
`total` is rejected — `SaleSerializer.create` raises the `paid_amount`
validation error for every payment method, and the view leaves the product
store unchanged and creates no sale. -/
theorem sale_overpay_rejected (store : List Product) (shop : ℕ)
    (items : List SaleItemReq) (req : SaleCreateReq)
    (h : req.payPaid > req.total) :
    SaleSerializer.create req = .error "paid_amount" ∧
    (SaleViewSet.create store shop items req).response.isOk = false ∧
    (SaleViewSet.create store shop items req).products = store := by
  have hser : SaleSerializer.create req = .error "paid_amount" := by
    simp only [SaleSerializer.create]
    rw [if_pos h]
  refine ⟨hser, ?_⟩
  simp only [SaleViewSet.create]
  cases hsc : stockCheck (fetchProducts store shop (pidsOf items)) items with
  | some e => simp [hsc, Except.isOk, Except.toBool]
  | none => simp [hsc, hser, Except.isOk, Except.toBool]

/-- Witness for C9: a concrete request with `paid_amount` 300 > `total` 250
is rejected, via `sale_overpay_rejected`. -/
theorem sale_overpay_rejected_witness :
    SaleSerializer.create ⟨false, 0, some "cash", 300, 250, 0⟩ = .error "paid_amount" ∧
    (SaleViewSet.create [] 1 [] ⟨false, 0, some "cash", 300, 250, 0⟩).response.isOk = false ∧
    (SaleViewSet.create [] 1 [] ⟨false, 0, some "cash", 300, 250, 0⟩).products = [] := by
  exact sale_overpay_rejected [] 1 [] ⟨false, 0, some "cash", 300, 250, 0⟩ (by norm_num)

/-- Helper: when every item resolves to a fetched product and some item's
truncated quantity exceeds its product's stock, the stock-check loop stops
with the insufficient-stock error of the first such item. -/
theorem stockCheck_finds_insufficient (ps : List Product) (items : List SaleItemReq)
    (hres : ∀ it ∈ items, (lookupProduct ps it.product).isSome)
    (hoff : ∃ it ∈ items, ∃ p, lookupProduct ps it.product = some p ∧
      p.stock < (pyTrunc it.quantity : ℚ)) :
    ∃ t a, stockCheck ps items = some (.insufficientStock t a) ∧
      ∃ it ∈ items, ∃ p, lookupProduct ps it.product = some p ∧
        p.title = t ∧ p.stock = a ∧ p.stock < (pyTrunc it.quantity : ℚ) := by
  induction items with
  | nil => simp at hoff
  | cons it₀ rest ih =>
    obtain ⟨p₀, hp₀⟩ := Option.isSome_iff_exists.mp (hres it₀ (by simp))
    by_cases hlt : p₀.stock < (pyTrunc it₀.quantity : ℚ)
    · refine ⟨p₀.title, p₀.stock, ?_, it₀, by simp, p₀, hp₀, rfl, rfl, hlt⟩
      simp only [stockCheck, List.findSome?_cons, hp₀]
      rw [if_pos hlt]
    · have hres' : ∀ it ∈ rest, (lookupProduct ps it.product).isSome :=
        fun it hit => hres it (List.mem_cons_of_mem _ hit)
      have hoff' : ∃ it ∈ rest, ∃ p, lookupProduct ps it.product = some p ∧
          p.stock < (pyTrunc it.quantity : ℚ) := by
        obtain ⟨it, hit, p, hp, hplt⟩ := hoff
        rcases List.mem_cons.mp hit with heq | hmem
        · subst heq; rw [hp₀] at hp; cases hp; exact absurd hplt hlt
        · exact ⟨it, hmem, p, hp, hplt⟩
      obtain ⟨t, a, hsc, it, hit, p, hp, ht, ha, hplt⟩ := ih hres' hoff'
      refine ⟨t, a, ?_, it, List.mem_cons_of_mem _ hit, p, hp, ht, ha, hplt⟩
      simp only [stockCheck, List.findSome?_cons, hp₀] at hsc ⊢
      rw [if_neg hlt]
      exact hsc

/-- C2 (amended): for every `createSale` request whose items all resolve to
tenant-scoped products, if some item's quantity — truncated to an integer by
the view's `int(...)` coercion — exceeds its product's available stock, the
whole operation fails with the insufficient-stock error naming an offending
product and its available stock, no product's stock is mutated, and no sale
is created. -/
theorem saleView_insufficient_stock (store : List Product) (shop : ℕ)
    (items : List SaleItemReq) (req : SaleCreateReq)
    (hres : ∀ it ∈ items,
      (lookupProduct (fetchProducts store shop (pidsOf items)) it.product).isSome)
    (hoff : ∃ it ∈ items, ∃ p,
      lookupProduct (fetchProducts store shop (pidsOf items)) it.product = some p ∧
      p.stock < (pyTrunc it.quantity : ℚ)) :
    ∃ t a, (SaleViewSet.create store shop items req).response =
        .error (.insufficientStock t a) ∧
      (SaleViewSet.create store shop items req).products = store ∧
      ∃ it ∈ items, ∃ p,
        lookupProduct (fetchProducts store shop (pidsOf items)) it.product = some p ∧
        p.title = t ∧ p.stock = a ∧ p.stock < (pyTrunc it.quantity : ℚ) := by
  obtain ⟨t, a, hsc, hwit⟩ := stockCheck_finds_insufficient _ _ hres hoff
  refine ⟨t, a, ?_, ?_, hwit⟩ <;> simp [SaleViewSet.create, hsc]

/-- Witness for the amended C2: requesting quantity 5 of a product with
stock 2 fails with the insufficient-stock error and mutates nothing, via
`saleView_insufficient_stock`. -/
theorem saleView_insufficient_stock_witness :
    ∃ t a, (SaleViewSet.create [⟨1, 1, "Rice", 2⟩] 1 [⟨some 1, 5⟩]
        ⟨false, 0, some "cash", 0, 10, 0⟩).response = .error (.insufficientStock t a) ∧
      (SaleViewSet.create [⟨1, 1, "Rice", 2⟩] 1 [⟨some 1, 5⟩]
        ⟨false, 0, some "cash", 0, 10, 0⟩).products = [⟨1, 1, "Rice", 2⟩] ∧
      ∃ it ∈ [(⟨some 1, 5⟩ : SaleItemReq)], ∃ p,
        lookupProduct (fetchProducts [⟨1, 1, "Rice", 2⟩] 1 (pidsOf [⟨some 1, 5⟩]))
          it.product = some p ∧
        p.title = t ∧ p.stock = a ∧ p.stock < (pyTrunc it.quantity : ℚ) := by
  apply saleView_insufficient_stock
  · intro it hit
    simp only [List.mem_singleton] at hit
    subst hit
    simp +decide [lookupProduct, fetchProducts, pidsOf]
  · refine ⟨⟨some 1, 5⟩, by simp, ⟨1, 1, "Rice", 2⟩, ?_, ?_⟩
    · simp +decide [lookupProduct, fetchProducts, pidsOf]
    · norm_num [pyTrunc]

/-- Counterexample to C2 as stated: a request for quantity 0.9 of a product
with stock 0.5 — the requested quantity exceeds the available stock — still
succeeds, because the view compares stock against `int(0.9) = 0`. -/
theorem saleView_fractional_bypass :
    (SaleViewSet.create [⟨1, 1, "Rice", 1/2⟩] 1 [⟨some 1, 9/10⟩]
      ⟨false, 0, some "cash", 0, 10, 0⟩).response.isOk = true ∧
    ((1 : ℚ)/2 < 9/10) := by
  constructor
  · simp +decide only [SaleViewSet.create, stockCheck, lookupProduct, fetchProducts,
      pidsOf, SaleSerializer.create, Sale.save, pyTrunc, pyStrip, applyDecrements,
      List.findSome?, List.filter, List.filterMap, List.find?, Option.bind,
      Except.isOk, Except.toBool]
    norm_num
  · norm_num

/-- C3 (code bug): a successfully created sale for quantity 0.5 of a product
with stock 10 leaves the stock at 10 instead of 9.5 — the view decrements by
`int(quantity) = 0`, although `SaleItem.quantity` is a 3-decimal-place
`DecimalField` documented to support fractional units. -/
theorem saleView_truncated_decrement :
    SaleViewSet.create [⟨1, 1, "Rice", 10⟩] 1 [⟨some 1, 1/2⟩]
      ⟨false, 0, some "cash", 0, 50, 0⟩ =
      ⟨.ok ⟨⟨"cash", 50, 0, 50, 0, 0⟩, none⟩, [⟨1, 1, "Rice", 10⟩]⟩ ∧
    (10 : ℚ) - 1/2 ≠ 10 := by
  constructor
  · simp +decide only [SaleViewSet.create, stockCheck, lookupProduct, fetchProducts,
      pidsOf, SaleSerializer.create, Sale.save, pyTrunc, pyStrip, applyDecrements,
      List.findSome?, List.filter, List.filterMap, List.find?, Option.bind,
      List.foldl, List.map]
    norm_num
    decide
  · norm_num

/-- C5: for every purchase line, `PurchaseItem.save` computes
`total_base_qty = pack_size × qty_packs`,
`total = price_per_pack × qty_packs`,
`cost_per_base_unit = price_per_pack / pack_size` for positive `pack_size`
and 0 when `pack_size = 0`, and increases the stocked target's stock
(variant if present, else product) by exactly `total_base_qty`; in
particular `pack_size = 24, qty_packs = 5, price_per_pack = 120` yields
`total_base_qty = 120`, `cost_per_base_unit = 5`, `total = 600` and a stock
increase of 120. -/
theorem purchase_unit_conversion :
    (∀ pack_size qty_packs price_per_pack : ℚ, ∀ variantStock productStock : Option ℚ,
      (PurchaseItem.save pack_size qty_packs price_per_pack variantStock productStock).total_base_qty
          = pack_size * qty_packs ∧
      (PurchaseItem.save pack_size qty_packs price_per_pack variantStock productStock).total
          = price_per_pack * qty_packs ∧
      (0 < pack_size →
        (PurchaseItem.save pack_size qty_packs price_per_pack variantStock productStock).cost_per_base_unit
          = price_per_pack / pack_size) ∧
      (pack_size = 0 →
        (PurchaseItem.save pack_size qty_packs price_per_pack variantStock productStock).cost_per_base_unit
          = 0) ∧
      (∀ v, variantStock = some v →
        (PurchaseItem.save pack_size qty_packs price_per_pack variantStock productStock).variantStock
            = some (v + pack_size * qty_packs) ∧
        (PurchaseItem.save pack_size qty_packs price_per_pack variantStock productStock).productStock
            = productStock) ∧
      (variantStock = none → ∀ pr, productStock = some pr →
        (PurchaseItem.save pack_size qty_packs price_per_pack variantStock productStock).productStock
            = some (pr + pack_size * qty_packs))) ∧
    (∀ s : ℚ, PurchaseItem.save 24 5 120 none (some s) = ⟨120, 5, 600, none, some (s + 120)⟩) := by
  constructor
  · intro ps qp ppp vs prs
    cases vs <;> cases prs <;> simp_all [PurchaseItem.save]
  · intro s
    simp [PurchaseItem.save]
    norm_num

/-- Witness for C5: the guarded division case applied at
`pack_size = 24 > 0`, via `purchase_unit_conversion`. -/
theorem purchase_unit_conversion_witness :
    (0:ℚ) < 24 ∧
    (PurchaseItem.save 24 5 120 none (some 0)).cost_per_base_unit = 120 / 24 := by
  exact ⟨by norm_num, (purchase_unit_conversion.1 24 5 120 none (some 0)).2.2.1 (by norm_num)⟩

/-- C8 (amended): `PurchaseSerializer.create` appends, per purchase line
that carries a non-empty batch number *and references a product or variant*,
exactly one stock-ledger entry of type `purchase` with
`quantity = remaining_qty = total_base_qty`; a line without a batch number
appends no entry. -/
theorem purchase_ledger_per_line :
    (∀ (items : List PurchaseLineReq) (discount : ℚ),
      (PurchaseSerializer.create items discount).2 = items.flatMap ledgerEntriesFor) ∧
    (∀ it : PurchaseLineReq,
      ((it.variant.isSome ∨ it.product.isSome) → strTruthy it.batch_no = true →
        ledgerEntriesFor it =
          [⟨"purchase", it.batch_no, it.pack_size * it.qty_packs,
            it.pack_size * it.qty_packs⟩]) ∧
      (strTruthy it.batch_no = false → ledgerEntriesFor it = [])) := by
  constructor
  · intro items discount
    rfl
  · intro it
    constructor
    · intro htarget hbatch
      simp [ledgerEntriesFor, htarget, hbatch]
    · intro hbatch
      simp [ledgerEntriesFor, hbatch]

/-- Witness for the amended C8: a line with product 1, batch `"B1"`,
`pack_size = 2`, `qty_packs = 3` appends exactly one `purchase` entry with
quantity 6, via `purchase_ledger_per_line`. -/
theorem purchase_ledger_per_line_witness :
    (PurchaseSerializer.create [⟨some 1, none, 2, 3, 10, some "B1"⟩] 0).2 =
      [⟨"purchase", some "B1", 6, 6⟩] := by
  have h := (purchase_ledger_per_line.2 ⟨some 1, none, 2, 3, 10, some "B1"⟩).1
    (by simp) (by decide)
  rw [purchase_ledger_per_line.1]
  simp [h]
  norm_num

/-- Counterexample to C8 as stated: a purchase line that carries batch
number `"B1"` but references neither a product nor a variant appends no
stock-ledger entry (`if product and item.batch_no` fails on the missing
target). -/
theorem purchase_batch_without_target :
    (PurchaseSerializer.create [⟨none, none, 2, 3, 10, some "B1"⟩] 0).2 = [] ∧
    strTruthy (⟨none, none, 2, 3, 10, some "B1"⟩ : PurchaseLineReq).batch_no = true := by
  constructor
  · simp +decide [PurchaseSerializer.create, ledgerEntriesFor]
  · decide

/-- C10: `CustomerViewSet.repay` rejects (creating no `CustomerPayment`)
every repayment whose amount is ≤ 0 or exceeds the customer's current due,
with the due re-derived as Σ sale totals − (Σ sale paid amounts + Σ prior
repayments). -/
theorem repay_rejected (sales : List (ℚ × ℚ)) (repaid : List ℚ) (amount : ℚ)
    (h : amount ≤ 0 ∨ amount > currentDue sales repaid) :
    (CustomerViewSet.repay sales repaid amount).isOk = false := by
  by_cases h1 : amount ≤ 0
  · simp [CustomerViewSet.repay, h1, Except.isOk, Except.toBool]
  · have h2 : amount > currentDue sales repaid := h.resolve_left h1
    simp [CustomerViewSet.repay, h1, h2, Except.isOk, Except.toBool]

/-- Witness for C10: repaying 300 against a single sale of total 250 with
100 already paid (current due 150) is rejected, via `repay_rejected`. -/
theorem repay_rejected_witness :
    (CustomerViewSet.repay [(250, 100)] [] 300).isOk = false := by
  exact repay_rejected [(250, 100)] [] 300 (Or.inr (by norm_num [currentDue]))

/-- C6: for every cash-ledger history generated by the (spec-modelled)
append operation and every tenant, the `running_balance` stored on the
tenant's most recent entry (0 when it has none) equals the balance
re-derived by `CashTransaction.get_current_balance`, i.e. the sum of the
tenant's credits minus its debits in insertion order. -/
theorem cash_running_balance (txs : List CashTx) (h : CashReachable txs) (shop : ℕ) :
    prevRunningBalance txs shop = CashTransaction.get_current_balance txs shop := by
  induction h with
  | nil => simp [prevRunningBalance, CashTransaction.get_current_balance]
  | append txs' s c amt hr ih =>
    by_cases hs : s = shop
    · subst hs
      have he : (appendCashEntry txs' s c amt).filter (fun t => t.shop = s) =
          txs'.filter (fun t => t.shop = s) ++
            [⟨s, c, amt, prevRunningBalance txs' s + (if c then amt else -amt)⟩] := by
        simp [appendCashEntry, List.filter_append, List.filter_cons]
      have h1 : prevRunningBalance (appendCashEntry txs' s c amt) s =
          prevRunningBalance txs' s + (if c then amt else -amt) := by
        simp [prevRunningBalance, he, List.getLast?_concat]
      have h2 : CashTransaction.get_current_balance (appendCashEntry txs' s c amt) s =
          CashTransaction.get_current_balance txs' s + (if c then amt else -amt) := by
        simp only [CashTransaction.get_current_balance, he, List.map_append,
          List.sum_append]
        cases c <;> simp <;> ring
      rw [h1, h2, ih]
    · have he : (appendCashEntry txs' s c amt).filter (fun t => t.shop = shop) =
          txs'.filter (fun t => t.shop = shop) := by
        simp [appendCashEntry, List.filter_append, List.filter_cons, hs]
      simp only [prevRunningBalance, CashTransaction.get_current_balance, he] at ih ⊢
      exact ih

/-- Witness for C6 (spec scenario E): credit 500 then debit 120 leaves the
stored running balance of the last entry equal to the re-derived balance
(380), via `cash_running_balance`. -/
theorem cash_running_balance_witness :
    prevRunningBalance (appendCashEntry (appendCashEntry [] 1 true 500) 1 false 120) 1 =
      CashTransaction.get_current_balance
        (appendCashEntry (appendCashEntry [] 1 true 500) 1 false 120) 1 := by
  exact cash_running_balance _
    (CashReachable.append _ 1 false 120 (CashReachable.append _ 1 true 500 CashReachable.nil)) 1

/-- C7 (code bug): `invoice_view` looks a `Sale` up by primary key only, so
a user whose tenant is shop 1 retrieves the sale of shop 2 — while the
tenant-scoped queryset of `ShopFilterMixin.get_queryset` (used by the list
endpoints) correctly returns nothing for shop 1. -/
theorem invoice_view_cross_tenant :
    invoice_view [⟨1, 2⟩] 1 1 = some ⟨1, 2⟩ ∧
    (⟨1, 2⟩ : SaleRow).shop ≠ 1 ∧
    ShopFilterMixin.get_queryset [⟨1, 2⟩] 1 = [] := by
  refine ⟨by decide, by decide, by decide⟩
